import Mathlib

/-!
Shallow embedding of `src/azure_geocoder.py` (SalesMapper).

The script reads a CSV, builds an address per row from fixed columns,
issues one HTTP GET per address, classifies the outcome, appends the
four result fields to the row, throttles between calls, and accumulates
summary counters.  We embed:

* rows as `List String`;
* the JSON body of a 200 response as `JsonBody` (a `results` list whose
  elements optionally carry a `position` object with `lat`/`lon` and a
  `score`);
* Python floats appearing in the JSON as `PyNum`: the embedding keeps
  the value's `str()` rendering and whether the value is zero (which is
  what Python truthiness tests observe);
* the outcome of `requests.get` as `HttpOutcome`: a delivered response
  with a status code and body, a timeout, a `RequestException`, or any
  other exception (the two exception branches of the source);
* the processing loop of `main` as state-passing recursion over the row
  list, with the sleep and per-row processing recorded in an explicit
  event trace.
-/

namespace AzureGeocoder

/-- A Python float as it appears in the decoded JSON: its `str()`
rendering together with whether it equals zero.  Python truthiness of a
float is exactly non-zeroness, which is all `geocode_address` tests. -/
structure PyNum where
  render : String
  isZero : Bool
deriving DecidableEq, Repr

/-- The `position` object of a search result; `lat`/`lon` may be absent. -/
structure Position where
  lat : Option PyNum
  lon : Option PyNum
deriving DecidableEq, Repr

/-- One element of the `results` array: an optional `position` object and
an optional `score`. -/
structure SearchResult where
  position : Option Position
  score : Option PyNum
deriving DecidableEq, Repr

/-- The JSON body of a 200 response: its `results` array.  A missing
`results` key is embedded as the empty list (the source only tests
`data.get('results') and len(data['results']) > 0`, which conflates the
two). -/
structure JsonBody where
  results : List SearchResult
deriving DecidableEq, Repr

/-- Outcome of the single `requests.get` call in `geocode_address`:
a delivered response (status code plus decoded body), a
`requests.exceptions.Timeout`, a `requests.exceptions.RequestException`
with message `msg`, or any other exception with message `msg`. -/
inductive HttpOutcome where
  | ok (statusCode : Nat) (body : JsonBody)
  | timeout
  | reqExc (msg : String)
  | otherExc (msg : String)
deriving DecidableEq, Repr

/-- The 4-tuple `(lat, lon, confidence, status)` returned by
`geocode_address`. -/
structure GeocodeResult where
  lat : String
  lon : String
  confidence : String
  status : String
deriving DecidableEq, Repr

/-- Python `x.get(k, '')` followed by `str(...)`: `str('') = ''` and a
float renders as its `str()`. -/
def pyStr : Option PyNum → String
  | none => ""
  | some n => n.render

/-- Python truthiness of `x.get(k, '')`: `''` is falsy, a float is truthy
iff non-zero. -/
def pyTruthy : Option PyNum → Bool
  | none => false
  | some n => !n.isZero

/-- Embedding of `build_address` (src/azure_geocoder.py lines 18-29):
reads indices 9-12, strips each existing field (a missing index reads as
`''`), keeps the non-empty ones and joins them with `", "`; `None` when
all four are blank. -/
def build_address (row : List String) : Option String :=
  let street1 := (row.getD 9 "").trim
  let street2 := (row.getD 10 "").trim
  let city := (row.getD 11 "").trim
  let zip_code := (row.getD 12 "").trim
  let parts := [street1, street2, city, zip_code].filter (fun p => p != "")
  if parts = [] then none else some (String.intercalate ", " parts)

/-- Embedding of `geocode_address` (src/azure_geocoder.py lines 31-78).
The HTTP request itself is abstracted into the `out : HttpOutcome`
argument; the function is the classification logic of the source.  Note
`if not address:` is true for both `None` and `''`, and `if lat and lon:`
tests Python truthiness of `position.get('lat', '')` /
`position.get('lon', '')`. -/
def geocode_address (address : Option String) (out : HttpOutcome) : GeocodeResult :=
  match address with
  | none => ⟨"", "", "", "No Address"⟩
  | some a =>
    if a = "" then ⟨"", "", "", "No Address"⟩
    else
      match out with
      | .ok code body =>
        if code = 200 then
          match body.results with
          | [] => ⟨"", "", "", "Not Found"⟩
          | res :: _ =>
            let lat := res.position.bind Position.lat
            let lon := res.position.bind Position.lon
            let confidence := res.score
            if pyTruthy lat && pyTruthy lon then
              ⟨pyStr lat, pyStr lon, pyStr confidence, "Success"⟩
            else
              ⟨"", "", "", "Not Found"⟩
        else if code = 401 then ⟨"", "", "", "Error: Invalid API Key"⟩
        else if code = 403 then ⟨"", "", "", "Error: Forbidden"⟩
        else if code = 429 then ⟨"", "", "", "Error: Rate Limit"⟩
        else ⟨"", "", "", "Error: HTTP " ++ toString code⟩
      | .timeout => ⟨"", "", "", "Error: Timeout"⟩
      | .reqExc msg => ⟨"", "", "", "Error: " ++ msg.take 50⟩
      | .otherExc msg => ⟨"", "", "", "Error: " ++ msg.take 50⟩

/-- Observable effects of one pass of the processing loop in `main`:
processing of the row with 1-based index `i`, and the
`time.sleep(DELAY_MS / 1000.0)` call. -/
inductive Event where
  | rowStep (i : Nat)
  | sleep
deriving DecidableEq, Repr

/-- The mutable state of the loop in `main` (src/azure_geocoder.py lines
115-149): the collected output rows, the two counters, the cumulative
confidence, plus the explicit trace of effects. -/
structure LoopState where
  results : List (List String)
  success_count : Nat
  error_count : Nat
  total_confidence : ℚ
  events : List Event
deriving DecidableEq, Repr

/-- Embedding of the `for i, row in enumerate(rows, 1):` loop of `main`
(src/azure_geocoder.py lines 120-149).  `pyFloat` stands for Python's
`float()` parser (`none` when it raises), `outs i` is the outcome of the
HTTP request issued for loop index `i`, and `total` is `total_rows`.
Each iteration builds the address, geocodes it, updates the counters
(adding the parsed confidence on success when it is non-empty and
parses, silently skipping otherwise), appends the augmented row, and
sleeps iff `i < total`. -/
def processRows (pyFloat : String → Option ℚ) (outs : Nat → HttpOutcome)
    (total : Nat) : Nat → List (List String) → LoopState → LoopState
  | _, [], st => st
  | i, row :: rest, st =>
    let r := geocode_address (build_address row) (outs i)
    let st1 : LoopState :=
      if r.status = "Success" then
        { st with
          success_count := st.success_count + 1,
          total_confidence :=
            if r.confidence ≠ "" then
              match pyFloat r.confidence with
              | some v => st.total_confidence + v
              | none => st.total_confidence
            else st.total_confidence }
      else { st with error_count := st.error_count + 1 }
    let st2 : LoopState :=
      { st1 with
        results := st1.results ++ [row ++ [r.lat, r.lon, r.confidence, r.status]],
        events := st1.events ++ [Event.rowStep i] }
    let st3 : LoopState :=
      if i < total then { st2 with events := st2.events ++ [Event.sleep] } else st2
    processRows pyFloat outs total (i + 1) rest st3

/-- The whole processing loop of `main`, started on the data rows with
loop index 1, empty result list, zeroed counters and empty trace. -/
def runPipeline (pyFloat : String → Option ℚ) (outs : Nat → HttpOutcome)
    (rows : List (List String)) : LoopState :=
  processRows pyFloat outs rows.length 1 rows ⟨[], 0, 0, 0, []⟩

/-- Embedding of the summary step (src/azure_geocoder.py lines 166-168):
the average confidence is computed (and printed) only when
`success_count > 0`; otherwise the line is omitted. -/
def avgConfidence (st : LoopState) : Option ℚ :=
  if st.success_count > 0 then some (st.total_confidence / (st.success_count : ℚ))
  else none

/-! Spec-side helpers: closed forms of what one loop iteration
contributes, used to state and prove properties of `processRows`. -/

/-- The four result fields appended to a row, in the fixed order of
`result_row = row + [lat, lon, confidence, status]`. -/
def geoFields (r : GeocodeResult) : List String :=
  [r.lat, r.lon, r.confidence, r.status]

/-- The status produced for `row` when the HTTP outcome at loop index `i`
is `outs i`. -/
def rowStatus (outs : Nat → HttpOutcome) (i : Nat) (row : List String) : String :=
  (geocode_address (build_address row) (outs i)).status

/-- The output rows produced from `rows` starting at loop index `i`:
each input row with its four result fields appended, in input order. -/
def augmentRows (outs : Nat → HttpOutcome) : Nat → List (List String) → List (List String)
  | _, [] => []
  | i, row :: rest =>
    (row ++ geoFields (geocode_address (build_address row) (outs i)))
      :: augmentRows outs (i + 1) rest

/-- Number of rows (from loop index `i` on) whose status is exactly
`"Success"`. -/
def countSuccesses (outs : Nat → HttpOutcome) : Nat → List (List String) → Nat
  | _, [] => 0
  | i, row :: rest =>
    (if rowStatus outs i row = "Success" then 1 else 0) + countSuccesses outs (i + 1) rest

/-- Number of rows (from loop index `i` on) whose status is anything
other than `"Success"`. -/
def countErrors (outs : Nat → HttpOutcome) : Nat → List (List String) → Nat
  | _, [] => 0
  | i, row :: rest =>
    (if rowStatus outs i row = "Success" then 0 else 1) + countErrors outs (i + 1) rest

/-- What one row adds to `total_confidence`: the parsed confidence when
the row succeeded, its confidence string is non-empty and `float()`
succeeds; `0` otherwise (in particular a parse failure adds nothing). -/
def confContrib (pyFloat : String → Option ℚ) (r : GeocodeResult) : ℚ :=
  if r.status = "Success" ∧ r.confidence ≠ "" then (pyFloat r.confidence).getD 0 else 0

/-- Total confidence accumulated over `rows` from loop index `i` on. -/
def confSum (pyFloat : String → Option ℚ) (outs : Nat → HttpOutcome) :
    Nat → List (List String) → ℚ
  | _, [] => 0
  | i, row :: rest =>
    confContrib pyFloat (geocode_address (build_address row) (outs i))
      + confSum pyFloat outs (i + 1) rest

/-- The event trace of processing `n` rows starting at loop index `i`
out of `total`: each row step is followed by a sleep exactly when its
index is below `total`. -/
def sleepTrace (total : Nat) : Nat → Nat → List Event
  | _, 0 => []
  | i, n + 1 =>
    Event.rowStep i :: ((if i < total then [Event.sleep] else []) ++ sleepTrace total (i + 1) n)

/-- Closed form of the processing loop: starting from any state, it
appends the augmented rows and the event trace, and adds the row counts
and confidence contributions to the counters. -/
theorem processRows_eq (p : String → Option ℚ) (o : Nat → HttpOutcome) (total : Nat)
    (rows : List (List String)) : ∀ (i : Nat) (st : LoopState),
    processRows p o total i rows st =
      ⟨st.results ++ augmentRows o i rows,
       st.success_count + countSuccesses o i rows,
       st.error_count + countErrors o i rows,
       st.total_confidence + confSum p o i rows,
       st.events ++ sleepTrace total i rows.length⟩ := by
  induction rows with
  | nil =>
    intro i st
    simp [processRows, augmentRows, countSuccesses, countErrors, confSum, sleepTrace]
  | cons row rest ih =>
    intro i st
    rw [processRows, ih]
    simp only [augmentRows, countSuccesses, countErrors, confSum, sleepTrace, rowStatus,
      confContrib, geoFields, List.length_cons]
    rcases hp : p (geocode_address (build_address row) (o i)).confidence with _ | v <;>
      split_ifs <;>
        simp_all [List.append_assoc, add_assoc, add_comm, add_left_comm]

/-- A four-element filter by non-emptiness is empty iff all four strings
are empty. -/
theorem filter_four_eq_nil (a b c d : String) :
    ([a, b, c, d].filter (fun p => p != "") = []) ↔ (a = "" ∧ b = "" ∧ c = "" ∧ d = "") := by
  by_cases ha : a = "" <;> by_cases hb : b = "" <;> by_cases hc : c = "" <;>
    by_cases hd : d = "" <;> simp_all [List.filter_cons, bne_iff_ne]

/-- C2: `build_address` returns `none` iff the four fields at indices
9-12 are all blank after trimming (an absent index reads as `""`, hence
blank); otherwise it returns the trimmed non-blank subset of those four
fields, joined by `", "` in the fixed order street 1, street 2, city,
zip. -/
theorem build_address_spec (row : List String) :
    (build_address row = none ↔
      ((row.getD 9 "").trim = "" ∧ (row.getD 10 "").trim = "" ∧
       (row.getD 11 "").trim = "" ∧ (row.getD 12 "").trim = "")) ∧
    (build_address row = none ∨
      build_address row = some (String.intercalate ", "
        ([(row.getD 9 "").trim, (row.getD 10 "").trim,
          (row.getD 11 "").trim, (row.getD 12 "").trim].filter (fun p => p != "")))) := by
  simp only [build_address]
  constructor
  · split_ifs with h
    · simpa using (filter_four_eq_nil _ _ _ _).mp h
    · simp only [false_iff]
      intro hall
      exact h ((filter_four_eq_nil _ _ _ _).mpr
        ⟨hall.1, hall.2.1, hall.2.2.1, hall.2.2.2⟩)
  · split_ifs with h
    · exact Or.inl rfl
    · exact Or.inr rfl

/-- A 200 body whose first result carries both coordinates, but both are
the float `0.0`: the position contains a latitude and a longitude, yet
Python's `if lat and lon:` is false because `0.0` is falsy. -/
def zeroIslandBody : JsonBody :=
  ⟨[⟨some ⟨some ⟨"0.0", true⟩, some ⟨"0.0", true⟩⟩, some ⟨"0.98", false⟩⟩]⟩

/-- C3 counterexample: a 200 response with a non-empty results list whose
first result's position contains both a latitude and a longitude (both
`0.0`) is classified `"Not Found"`, not `"Success"`: the source tests
Python truthiness (`if lat and lon:`), and the float `0.0` is falsy. -/
theorem geocode_zero_coordinates_cex :
    zeroIslandBody.results ≠ [] ∧
    ((zeroIslandBody.results.headD ⟨none, none⟩).position.bind Position.lat).isSome = true ∧
    ((zeroIslandBody.results.headD ⟨none, none⟩).position.bind Position.lon).isSome = true ∧
    geocode_address (some "1 Null Island") (HttpOutcome.ok 200 zeroIslandBody) =
      ⟨"", "", "", "Not Found"⟩ := by
  decide

/-- C3 (amended): for a 200 response with a non-empty results list whose
first result's position has truthy (present and non-zero) latitude and
longitude, the client returns the stringified coordinates and confidence
of that first result with status `"Success"`. -/
theorem geocode_200_truthy_success (a : String) (ha : a ≠ "") (body : JsonBody)
    (res : SearchResult) (tl : List SearchResult) (hres : body.results = res :: tl)
    (hlat : pyTruthy (res.position.bind Position.lat) = true)
    (hlon : pyTruthy (res.position.bind Position.lon) = true) :
    geocode_address (some a) (HttpOutcome.ok 200 body) =
      ⟨pyStr (res.position.bind Position.lat), pyStr (res.position.bind Position.lon),
       pyStr res.score, "Success"⟩ := by
  simp [geocode_address, ha, hres, hlat, hlon]

/-- The mocked 200 body of the spec:
`results: [{position: {lat: 40.0, lon: -75.0}, score: 0.9}]`. -/
def mockBody : JsonBody :=
  ⟨[⟨some ⟨some ⟨"40.0", false⟩, some ⟨"-75.0", false⟩⟩, some ⟨"0.9", false⟩⟩]⟩

/-- C3 witness: on the spec's mocked 200 response the client returns
`("40.0", "-75.0", "0.9", "Success")`. -/
theorem geocode_200_truthy_success_witness :
    geocode_address (some "742 Evergreen Terrace") (HttpOutcome.ok 200 mockBody) =
      ⟨"40.0", "-75.0", "0.9", "Success"⟩ := by
  have h := geocode_200_truthy_success "742 Evergreen Terrace" (by decide) mockBody
    ⟨some ⟨some ⟨"40.0", false⟩, some ⟨"-75.0", false⟩⟩, some ⟨"0.9", false⟩⟩ [] rfl
    (by decide) (by decide)
  exact h

/-- C4: a delivered non-200 response yields empty coordinates and
confidence, with a status fixed by the code alone (401, 403 and 429 map
to their dedicated messages, anything else to `"Error: HTTP {code}"`),
independent of the body; a timeout yields `"Error: Timeout"`. -/
theorem geocode_non200 (a : String) (ha : a ≠ "") (code : Nat) (body : JsonBody)
    (hc : code ≠ 200) :
    geocode_address (some a) (HttpOutcome.ok code body) =
      ⟨"", "", "",
        if code = 401 then "Error: Invalid API Key"
        else if code = 403 then "Error: Forbidden"
        else if code = 429 then "Error: Rate Limit"
        else "Error: HTTP " ++ toString code⟩ ∧
    geocode_address (some a) HttpOutcome.timeout = ⟨"", "", "", "Error: Timeout"⟩ := by
  constructor
  · simp only [geocode_address, if_neg ha, if_neg hc]
    split_ifs <;> rfl
  · simp [geocode_address, ha]

/-- C4 witness: with the empty body, code 500 yields
`"Error: HTTP 500"` and code 429 yields `"Error: Rate Limit"`. -/
theorem geocode_non200_witness :
    geocode_address (some "x") (HttpOutcome.ok 500 ⟨[]⟩) =
      ⟨"", "", "", "Error: HTTP 500"⟩ ∧
    geocode_address (some "x") (HttpOutcome.ok 429 ⟨[]⟩) =
      ⟨"", "", "", "Error: Rate Limit"⟩ := by
  have h1 := geocode_non200 "x" (by decide) 500 ⟨[]⟩ (by decide)
  have h2 := geocode_non200 "x" (by decide) 429 ⟨[]⟩ (by decide)
  exact ⟨h1.1.trans (by decide), h2.1.trans (by decide)⟩

/-- C5: for every address and every outcome of the request the client
returns a result (the embedding is a total function, mirroring that the
source catches every exception class); whenever the status is not
`"Success"` all three data fields are empty; the status string is never
empty; and on either exception branch the status is exactly
`"Error: "` followed by the first 50 characters of the message. -/
theorem geocode_total_safe (address : Option String) (out : HttpOutcome) :
    ((geocode_address address out).status ≠ "Success" →
      (geocode_address address out).lat = "" ∧ (geocode_address address out).lon = "" ∧
        (geocode_address address out).confidence = "") ∧
    0 < (geocode_address address out).status.length ∧
    (∀ msg, (out = HttpOutcome.reqExc msg ∨ out = HttpOutcome.otherExc msg) →
      address ≠ none → address ≠ some "" →
      geocode_address address out = ⟨"", "", "", "Error: " ++ msg.take 50⟩) := by
  rcases address with _ | a
  · exact ⟨fun _ => ⟨rfl, rfl, rfl⟩, (by decide : (0 : Nat) < "No Address".length),
      fun msg _ hn _ => absurd rfl hn⟩
  · by_cases haa : a = ""
    · subst haa
      exact ⟨fun _ => ⟨rfl, rfl, rfl⟩, (by decide : (0 : Nat) < "No Address".length),
        fun msg _ _ hs => absurd rfl hs⟩
    · rcases out with ⟨code, body⟩ | _ | msg0 | msg0
      · by_cases h200 : code = 200
        · subst h200
          rcases hres : body.results with _ | ⟨res, tl⟩
          · have he : geocode_address (some a) (HttpOutcome.ok 200 body) =
                ⟨"", "", "", "Not Found"⟩ := by
              simp [geocode_address, haa, hres]
            rw [he]
            exact ⟨fun _ => ⟨rfl, rfl, rfl⟩, (by decide : (0 : Nat) < "Not Found".length),
              by intro msg hm; rcases hm with h | h <;> simp at h⟩
          · by_cases htr : (pyTruthy (res.position.bind Position.lat)
                && pyTruthy (res.position.bind Position.lon)) = true
            · have he : geocode_address (some a) (HttpOutcome.ok 200 body) =
                  ⟨pyStr (res.position.bind Position.lat),
                   pyStr (res.position.bind Position.lon),
                   pyStr res.score, "Success"⟩ := by
                simp [geocode_address, haa, hres, htr]
              rw [he]
              exact ⟨fun hst => absurd rfl hst, (by decide : (0 : Nat) < "Success".length),
                by intro msg hm; rcases hm with h | h <;> simp at h⟩
            · have he : geocode_address (some a) (HttpOutcome.ok 200 body) =
                  ⟨"", "", "", "Not Found"⟩ := by
                simp [geocode_address, haa, hres, htr]
              rw [he]
              exact ⟨fun _ => ⟨rfl, rfl, rfl⟩, (by decide : (0 : Nat) < "Not Found".length),
                by intro msg hm; rcases hm with h | h <;> simp at h⟩
        · have he : geocode_address (some a) (HttpOutcome.ok code body) =
              ⟨"", "", "",
                if code = 401 then "Error: Invalid API Key"
                else if code = 403 then "Error: Forbidden"
                else if code = 429 then "Error: Rate Limit"
                else "Error: HTTP " ++ toString code⟩ := by
            simp only [geocode_address, if_neg haa, if_neg h200]
            split_ifs <;> rfl
          rw [he]
          refine ⟨fun _ => ⟨rfl, rfl, rfl⟩, ?_, ?_⟩
          · split_ifs
            · decide
            · decide
            · decide
            · rw [String.length_append]
              exact Nat.lt_of_lt_of_le (by decide) (Nat.le_add_right _ _)
          · intro msg hm; rcases hm with h | h <;> simp at h
      · have he : geocode_address (some a) HttpOutcome.timeout =
            ⟨"", "", "", "Error: Timeout"⟩ := by
          simp [geocode_address, haa]
        rw [he]
        exact ⟨fun _ => ⟨rfl, rfl, rfl⟩, (by decide : (0 : Nat) < "Error: Timeout".length),
          by intro msg hm; rcases hm with h | h <;> simp at h⟩
      · have he : geocode_address (some a) (HttpOutcome.reqExc msg0) =
            ⟨"", "", "", "Error: " ++ msg0.take 50⟩ := by
          simp [geocode_address, haa]
        rw [he]
        refine ⟨fun _ => ⟨rfl, rfl, rfl⟩, ?_, ?_⟩
        · rw [String.length_append]
          exact Nat.lt_of_lt_of_le (by decide) (Nat.le_add_right _ _)
        · intro msg hm _ _
          rcases hm with h | h
          · injection h with h'; subst h'; rfl
          · cases h
      · have he : geocode_address (some a) (HttpOutcome.otherExc msg0) =
            ⟨"", "", "", "Error: " ++ msg0.take 50⟩ := by
          simp [geocode_address, haa]
        rw [he]
        refine ⟨fun _ => ⟨rfl, rfl, rfl⟩, ?_, ?_⟩
        · rw [String.length_append]
          exact Nat.lt_of_lt_of_le (by decide) (Nat.le_add_right _ _)
        · intro msg hm _ _
          rcases hm with h | h
          · cases h
          · injection h with h'; subst h'; rfl

set_option maxRecDepth 8192 in
/-- C5 witness: a `RequestException` with message `"boom"` on a real
address yields empty fields and status `"Error: boom"`. -/
theorem geocode_total_safe_witness :
    geocode_address (some "x") (HttpOutcome.reqExc "boom") =
      ⟨"", "", "", "Error: boom"⟩ := by
  have h := (geocode_total_safe (some "x") (HttpOutcome.reqExc "boom")).2.2 "boom"
    (Or.inl rfl) (by decide) (by decide)
  exact h.trans (by decide)

/-- C6: for the absent address the client returns
`("", "", "", "No Address")` whatever the outcome of the request would
have been — the result does not depend on the network at all. -/
theorem geocode_none_no_address (out : HttpOutcome) :
    geocode_address none out = ⟨"", "", "", "No Address"⟩ := rfl

/-- C9: the empty-string address is treated exactly like the absent one
(Python `if not address:` is true for `''`): the client returns
`("", "", "", "No Address")` independently of the network outcome. -/
theorem geocode_empty_no_address (out : HttpOutcome) :
    geocode_address (some "") out = ⟨"", "", "", "No Address"⟩ := rfl

/-- Augmenting preserves the number of rows. -/
theorem augmentRows_length (o : Nat → HttpOutcome) :
    ∀ (i : Nat) (rows : List (List String)), (augmentRows o i rows).length = rows.length := by
  intro i rows
  induction rows generalizing i with
  | nil => rfl
  | cons row rest ih => simp [augmentRows, ih]

/-- The k-th augmented row is the k-th input row with its four result
fields appended. -/
theorem augmentRows_getD (o : Nat → HttpOutcome) :
    ∀ (rows : List (List String)) (i k : Nat), k < rows.length →
      (augmentRows o i rows).getD k [] =
        rows.getD k [] ++
          geoFields (geocode_address (build_address (rows.getD k [])) (o (i + k))) := by
  intro rows
  induction rows with
  | nil => intro i k h; simp at h
  | cons row rest ih =>
    intro i k h
    cases k with
    | zero => simp [augmentRows]
    | succ m =>
      simp only [augmentRows, List.getD_cons_succ]
      have hm : m < rest.length := by simp at h; omega
      rw [ih (i + 1) m hm, show i + 1 + m = i + (m + 1) from by omega]

/-- Each row bumps exactly one of the two counters. -/
theorem countSuccesses_add_countErrors (o : Nat → HttpOutcome) :
    ∀ (i : Nat) (rows : List (List String)),
      countSuccesses o i rows + countErrors o i rows = rows.length := by
  intro i rows
  induction rows generalizing i with
  | nil => rfl
  | cons row rest ih =>
    have h := ih (i + 1)
    simp only [countSuccesses, countErrors, List.length_cons]
    split_ifs <;> omega

/-- Processing indices `i, …, i+n-1` of `total = i+n-1` rows sleeps once
after every index but the last. -/
theorem sleepTrace_count (total : Nat) :
    ∀ (n i : Nat), i + n = total + 1 →
      (sleepTrace total i n).count Event.sleep = n - 1 := by
  intro n
  induction n with
  | zero => intro i h; simp [sleepTrace]
  | succ m ih =>
    intro i h
    rw [sleepTrace]
    rcases Nat.eq_zero_or_pos m with hm | hm
    · subst hm
      have hnot : ¬i < total := by omega
      simp [hnot, sleepTrace, List.count_cons]
    · have hi : i < total := by omega
      have hrec := ih (i + 1) (by omega)
      simp [hi, List.count_cons, List.count_append, hrec, beq_iff_eq]
      omega

/-- C1: the output collected by the loop has exactly one row per input
row, in input order, and the k-th output row is the k-th input row with
the four result fields appended at the end in the fixed order latitude,
longitude, confidence, status — for every choice of per-row HTTP
outcomes, including failing ones. -/
theorem pipeline_preserves_rows (p : String → Option ℚ) (o : Nat → HttpOutcome)
    (rows : List (List String)) :
    (runPipeline p o rows).results.length = rows.length ∧
    ∀ k, k < rows.length →
      (runPipeline p o rows).results.getD k [] =
        rows.getD k [] ++
          geoFields (geocode_address (build_address (rows.getD k [])) (o (k + 1))) := by
  have h := processRows_eq p o rows.length rows 1 ⟨[], 0, 0, 0, []⟩
  rw [runPipeline, h]
  constructor
  · simpa using augmentRows_length o 1 rows
  · intro k hk
    have := augmentRows_getD o rows 1 k hk
    simpa [Nat.add_comm] using this

/-- Concrete one-row table used by the pipeline witnesses: thirteen
columns, with an address in columns 9-12. -/
def wRows : List (List String) :=
  [["a", "b", "c", "d", "e", "f", "g", "h", "i",
    "10 Main St", "", "Springfield", "49001"]]

/-- Per-index HTTP outcomes used by the pipeline witnesses: every
request times out. -/
def wOuts : Nat → HttpOutcome := fun _ => HttpOutcome.timeout

/-- Confidence parser used by the pipeline witnesses. -/
def wParse : String → Option ℚ := fun _ => none

/-- C1 witness: on the one-row table the single output row is the input
row with the four result fields appended. -/
theorem pipeline_preserves_rows_witness :
    (runPipeline wParse wOuts wRows).results.getD 0 [] =
      wRows.getD 0 [] ++
        geoFields (geocode_address (build_address (wRows.getD 0 [])) (wOuts 1)) :=
  (pipeline_preserves_rows wParse wOuts wRows).2 0 (by decide)

/-- C7: the success counter counts exactly the rows whose status is
`"Success"` and the error counter all others; the cumulative confidence
is the sum of the per-row contributions, where a row whose confidence
fails to parse (or is empty) contributes nothing; and the average
confidence is produced only when the success count is positive, so the
division by it is always guarded. -/
theorem pipeline_summary_spec (p : String → Option ℚ) (o : Nat → HttpOutcome)
    (rows : List (List String)) :
    (runPipeline p o rows).success_count = countSuccesses o 1 rows ∧
    (runPipeline p o rows).error_count = countErrors o 1 rows ∧
    (runPipeline p o rows).total_confidence = confSum p o 1 rows ∧
    (∀ q, avgConfidence (runPipeline p o rows) = some q →
      0 < (runPipeline p o rows).success_count ∧
      q = (runPipeline p o rows).total_confidence /
            ((runPipeline p o rows).success_count : ℚ)) ∧
    ((runPipeline p o rows).success_count = 0 →
      avgConfidence (runPipeline p o rows) = none) := by
  have h := processRows_eq p o rows.length rows 1 ⟨[], 0, 0, 0, []⟩
  refine ⟨by rw [runPipeline, h]; simp, by rw [runPipeline, h]; simp,
    by rw [runPipeline, h]; simp, ?_, ?_⟩
  · intro q hq
    rw [avgConfidence] at hq
    split_ifs at hq with hpos
    exact ⟨hpos, (Option.some.inj hq).symm⟩
  · intro h0
    rw [avgConfidence]
    simp [h0]

/-- A timed-out request never yields status `"Success"`, whatever the
address was. -/
theorem timeout_status_ne_success (addr : Option String) :
    (geocode_address addr HttpOutcome.timeout).status ≠ "Success" := by
  rcases addr with _ | a
  · decide
  · by_cases haa : a = ""
    · subst haa; decide
    · simp [geocode_address, haa]

/-- C7 witness: with every request timing out, the one-row run has no
successes and the average-confidence line is omitted. -/
theorem pipeline_summary_spec_witness :
    avgConfidence (runPipeline wParse wOuts wRows) = none := by
  have hspec := pipeline_summary_spec wParse wOuts wRows
  have h0 : countSuccesses wOuts 1 wRows = 0 := by
    simp [wRows, countSuccesses, rowStatus, wOuts, timeout_status_ne_success]
  exact hspec.2.2.2.2 (hspec.1.trans h0)

/-- C8: on a non-empty table the loop's event trace is exactly row 1,
sleep, row 2, sleep, …, row N — the fixed 200 ms sleep happens exactly
N-1 times, once between each pair of consecutive row iterations and
never after the last row. -/
theorem pipeline_throttle (p : String → Option ℚ) (o : Nat → HttpOutcome)
    (rows : List (List String)) (h : 1 ≤ rows.length) :
    (runPipeline p o rows).events = sleepTrace rows.length 1 rows.length ∧
    (runPipeline p o rows).events.count Event.sleep = rows.length - 1 := by
  have hrec := processRows_eq p o rows.length rows 1 ⟨[], 0, 0, 0, []⟩
  rw [runPipeline, hrec]
  constructor
  · simp
  · simpa using sleepTrace_count rows.length rows.length 1 (by omega)

/-- Two-row table for the throttle witness. -/
def wRows2 : List (List String) := [["r1"], ["r2"]]

/-- C8 witness: a two-row run sleeps exactly once. -/
theorem pipeline_throttle_witness :
    (runPipeline wParse wOuts wRows2).events.count Event.sleep = 1 := by
  have h := pipeline_throttle wParse wOuts wRows2 (by decide)
  exact h.2.trans (by decide)

/-- C10: after a run over any table the success counter plus the error
counter equals the number of rows — every row lands in exactly one
counter, the error counter collecting precisely the rows whose status is
not `"Success"` (hence also `"No Address"` and `"Not Found"` rows). -/
theorem pipeline_counts_partition (p : String → Option ℚ) (o : Nat → HttpOutcome)
    (rows : List (List String)) :
    (runPipeline p o rows).success_count + (runPipeline p o rows).error_count =
      rows.length ∧
    (runPipeline p o rows).error_count = countErrors o 1 rows := by
  have h := processRows_eq p o rows.length rows 1 ⟨[], 0, 0, 0, []⟩
  rw [runPipeline, h]
  exact ⟨by simpa using countSuccesses_add_countErrors o 1 rows, by simp⟩

end AzureGeocoder
